import Mathlib

/-!
Shallow embedding of the DevHub client-side auth subsystem:
`src/packages/components/src/redux/sagas/auth.ts` and
`src/packages/components/src/components/context/LoginHelpersContext.tsx`.

Conventions of the embedding:
* Timestamps are modeled as epoch milliseconds (`Int`).  The source stores
  ISO date strings and converts with `new Date(s).getTime()`; a string field
  is modeled by the epoch value it denotes, and `Date.now()` is the `now`
  parameter threaded through each function.
* A JavaScript field that may be `undefined`/`null` is an `Option`.
* JavaScript truthiness: a string is truthy iff non-empty, a number is
  truthy iff non-zero, an object (including an empty array) is truthy iff
  present; each truthiness test in the source is translated accordingly.
* Saga effects (`put`, `delay`, `take`, `continue`) are modeled by the
  explicit outcome value each code path produces.
-/

namespace DevHub

/-! ## Session Keeper (`init` in auth.ts, lines 86-142) -/

/-- The slice of the user record read by the keeper loop:
`user.lastLoginAt` (ISO string in the source, epoch ms here; `none` = unset). -/
structure KUser where
  lastLoginAt : Option Int
  deriving DecidableEq, Repr

/-- The slice of the plan record read by the keeper loop:
`plan.trialEndAt` (ISO string in the source, epoch ms here; `none` = unset,
matching the `plan.trialEndAt &&` truthiness guard). -/
structure KPlan where
  trialEndAt : Option Int
  deriving DecidableEq, Repr

/-- Outcome of one iteration of the keeper's `while (true)` loop. -/
inductive IterOutcome where
  /-- `yield take('LOGIN_SUCCESS')` at line 95 fired (some of appToken /
  isLogged / user missing), then `continue` at line 96. -/
  | waitLogin
  /-- `continue` at line 96 without waiting: state present but
  `user.lastLoginAt` unset. -/
  | restart
  /-- Branch 1 (line 101): `window.location.reload()`; control then still
  falls through to the generic delay block (lines 131-140), whose value is
  recorded. -/
  | reload (genericDelayMs : Int)
  /-- Branch 2 (line 111): `put(loginRequest({appToken}))`, then fall through
  to the generic delay block (lines 131-140). -/
  | refresh (appToken : String) (genericDelayMs : Int)
  /-- Branch 3 (line 119): `put(loginRequest({appToken}))`, `delay(60000)`,
  `continue` — the generic delay block is skipped. -/
  | trialJustExpired (appToken : String)
  /-- No branch of the chain fired; only the generic delay block runs. -/
  | idle (genericDelayMs : Int)
  deriving DecidableEq, Repr

/-- Lines 131-140: the generic delay computation.  Note line 137 computes
`Date.now() - new Date(plan.trialEndAt).getTime() + 100`, exactly as in the
source (now minus trial end, not trial end minus now). -/
def genericDelay (now : Int) (plan : Option KPlan) : Int :=
  match plan with
  | some p =>
    match p.trialEndAt with
    | some tEnd =>
      if tEnd > now ∧ tEnd - now < 1000 * 60 * 60 then now - tEnd + 100
      else 1000 * 60 * 60
    | none => 1000 * 60 * 60
  | none => 1000 * 60 * 60

/-- Lines 119-123: the guard of branch 3, `plan && plan.trialEndAt &&
Date.now() >= trialEndAt && Date.now() - trialEndAt < 1000 * 60 * 5`. -/
def trialJustExpiredCond (now : Int) (plan : Option KPlan) : Bool :=
  match plan with
  | some p =>
    match p.trialEndAt with
    | some tEnd => now ≥ tEnd ∧ now - tEnd < 1000 * 60 * 5
    | none => false
  | none => false

/-- One iteration of the keeper loop body (lines 90-141).  `reloadable`
models `window && window.location && window.location.reload`. -/
def keeperIteration (reloadable : Bool) (now : Int) (appToken : Option String)
    (isLogged : Bool) (user : Option KUser) (plan : Option KPlan) :
    IterOutcome :=
  match appToken, user with
  | some tok, some u =>
    if isLogged then
      match u.lastLoginAt with
      | none => .restart
      | some lastLogin =>
        if reloadable ∧ now - lastLogin > 1000 * 60 * 60 * 48 then
          .reload (genericDelay now plan)
        else if now - lastLogin > 1000 * 60 * 60 * 12 then
          .refresh tok (genericDelay now plan)
        else if trialJustExpiredCond now plan then
          .trialJustExpired tok
        else
          .idle (genericDelay now plan)
    else .waitLogin
  | _, _ => .waitLogin

/-- The login-request events (their `appToken` payloads) emitted during one
iteration. -/
def emittedRequests : IterOutcome → List String
  | .refresh tok _ => [tok]
  | .trialJustExpired tok => [tok]
  | _ => []

/-- The sleep performed at the end of one iteration (`none` when the
iteration restarts without sleeping). -/
def iterDelay : IterOutcome → Option Int
  | .waitLogin => none
  | .restart => none
  | .reload d => some d
  | .refresh _ d => some d
  | .trialJustExpired _ => some (1000 * 60 * 1)
  | .idle d => some d

/-- Whether the iteration skips the generic delay block (lines 131-140) and
restarts via `continue`. -/
def skipsGenericDelay : IterOutcome → Bool
  | .trialJustExpired _ => true
  | .waitLogin => true
  | .restart => true
  | _ => false

/-! ## Error Normalizer (auth.ts lines 27-84 and 374-384) -/

/-- One entry of a GraphQL `errors` array. -/
structure ErrMsg where
  message : String
  deriving DecidableEq, Repr

/-- The `data` object of a thrown value's `response` field.  `errors = some l`
models a present field that `Array.isArray` accepts (an empty array included:
`[]` is truthy in JavaScript, so it also passes the `&&` chain of
`isGraphQLErrorResponse`); `none` models an absent / non-array field. -/
structure RespData where
  errors : Option (List ErrMsg)
  deriving DecidableEq, Repr

/-- The `response` field of a thrown value.  `status = some n` models a
field for which `typeof === 'number'` holds; `none` an absent or non-numeric
one. -/
structure ThrownResponse where
  data : Option RespData
  status : Option Nat
  deriving DecidableEq, Repr

/-- An arbitrary thrown/rejected JavaScript value, as observed by the
`catch` blocks: whether it is an `Error` instance, whether it is a truthy
object (`typeof === 'object'`), its `name`/`message` (meaningful when it is
an `Error`), and its optional `response` field. -/
structure Thrown where
  isErrorInstance : Bool
  isObject : Bool
  name : String
  message : String
  response : Option ThrownResponse
  deriving DecidableEq, Repr

/-- `isGraphQLErrorResponse` (lines 71-84): `error` is a truthy object with
`response` object, `response.data` object, `response.data.errors` an array,
and `response.status` a number. -/
def isGraphQLErrorResponse (t : Thrown) : Bool :=
  t.isObject &&
    match t.response with
    | some r =>
      (match r.data with
        | some d => (match d.errors with | some _ => true | none => false)
        | none => false) &&
      (match r.status with | some _ => true | none => false)
    | none => false

/-- The argument record of `createGraphQLError` (the `GraphQLResponse`
interface, lines 38-44): `data` is carried but unused by the constructor. -/
structure GraphQLResponseArg where
  data : Option RespData
  status : Nat
  errors : Option (List ErrMsg)
  deriving DecidableEq, Repr

/-- `createGraphQLError` (lines 57-69): builds an `Error` whose `response`
is `{ data: { errors: response.errors || [{message:'Unknown GraphQL error'}] },
status: response.status }`.  (`||` falls to the default only when `errors` is
absent: an empty array is truthy.) -/
def createGraphQLError (message : String) (response : GraphQLResponseArg) :
    Thrown :=
  { isErrorInstance := true
    isObject := true
    name := "Error"
    message := message
    response := some
      { data := some
          { errors := some (match response.errors with
              | some l => l
              | none => [{ message := "Unknown GraphQL error" }]) }
        status := some response.status } }

/-- The normalized failure record built at lines 379-384:
`{ name, message, status?, response? }` where `response`, when set, is the
thrown value's `response.data`. -/
structure AuthError where
  name : String
  message : String
  status : Option Nat
  response : Option RespData
  deriving DecidableEq, Repr

/-- Lines 376-384: `err = error instanceof Error ? error : new Error('Unknown
error')`, then `status`/`response` are filled from the thrown value exactly
when `isGraphQLErrorResponse` accepts it. -/
def normalizeAuthError (t : Thrown) : AuthError :=
  let errName := if t.isErrorInstance then t.name else "Error"
  let errMessage := if t.isErrorInstance then t.message else "Unknown error"
  { name := errName
    message := errMessage
    status :=
      if isGraphQLErrorResponse t then
        match t.response with
        | some r => r.status
        | none => none
      else none
    response :=
      if isGraphQLErrorResponse t then
        match t.response with
        | some r => r.data
        | none => none
      else none }

/-! ## Session Exchanger, backend-mediated mode
(`onLoginRequest`, auth.ts lines 151-388, non-local branch) -/

/-- `data.login.user.github.user` as selected by the query: only the `id`
matters to the validation (`... && data.login.user.github.user.id`); a
numeric id of `0` is falsy in JavaScript, hence the `Option Nat` with a
separate truthiness test. -/
structure BGHUser where
  id : Option Nat
  deriving DecidableEq, Repr

/-- `data.login.user.github`. -/
structure BGithub where
  user : Option BGHUser
  deriving DecidableEq, Repr

/-- `data.login.user`: the user record emitted verbatim on success. -/
structure BUser where
  github : Option BGithub
  deriving DecidableEq, Repr

/-- `data.login`. -/
structure LoginData where
  appToken : Option String
  user : Option BUser
  deriving DecidableEq, Repr

/-- The GraphQL envelope `data` object (`response.data.data`). -/
structure Envelope where
  login : Option LoginData
  deriving DecidableEq, Repr

/-- An axios response to the login query: body `{ data, errors? }` plus the
HTTP `status`. -/
structure BackendResponse where
  data : Option Envelope
  errors : Option (List ErrMsg)
  status : Nat
  deriving DecidableEq, Repr

/-- JavaScript truthiness of an optional string. -/
def strTruthy : Option String → Bool
  | some s => s ≠ ""
  | none => false

/-- JavaScript truthiness of an optional number. -/
def natTruthy : Option Nat → Bool
  | some n => n ≠ 0
  | none => false

/-- Lines 358-368: `data && data.login && data.login.appToken &&
data.login.user && data.login.user.github && data.login.user.github.user &&
data.login.user.github.user.id`. -/
def validLoginResponse (resp : BackendResponse) : Bool :=
  match resp.data with
  | some env =>
    match env.login with
    | some l =>
      strTruthy l.appToken &&
        (match l.user with
          | some u =>
            match u.github with
            | some g =>
              match g.user with
              | some gu => natTruthy gu.id
              | none => false
            | none => false
          | none => false)
    | none => false
  | none => false

/-- Line 350: `errors && errors.length`. -/
def hasGraphQLErrors : Option (List ErrMsg) → Bool
  | some l => ¬ l.isEmpty
  | none => false

/-- An action emitted by the exchange saga. -/
inductive AuthAction where
  | loginSuccess (appToken : String) (user : BUser)
  | loginFailure (error : AuthError)
  deriving DecidableEq, Repr

/-- A plain `new Error(message)` thrown value. -/
def mkPlainError (message : String) : Thrown :=
  { isErrorInstance := true
    isObject := true
    name := "Error"
    message := message
    response := none }

/-- Backend-mediated branch of `onLoginRequest` (lines 348-387), as a
function of the request's `appToken` and the backend response: throwing is
modeled by feeding the thrown value straight to the catch block's
normalization, whose `loginFailure` is the result.  On success the saga
emits `loginSuccess({ appToken, user: data.login.user })` — `appToken` here
is the one destructured from the request action at line 154. -/
def onLoginRequestBackend (appToken : String) (resp : BackendResponse) :
    AuthAction :=
  if hasGraphQLErrors resp.errors then
    .loginFailure (normalizeAuthError (createGraphQLError "GraphQL Error"
      { data := some { errors := resp.errors }
        status := resp.status
        errors := resp.errors }))
  else if validLoginResponse resp then
    match resp.data with
    | some env =>
      match env.login with
      | some l =>
        match l.user with
        | some u => .loginSuccess appToken u
        | none => .loginFailure (normalizeAuthError (mkPlainError "Invalid response"))
      | none => .loginFailure (normalizeAuthError (mkPlainError "Invalid response"))
    | none => .loginFailure (normalizeAuthError (mkPlainError "Invalid response"))
  else
    .loginFailure (normalizeAuthError (mkPlainError "Invalid response"))

/-! ## Event Reactor: `onLoginFailure` (auth.ts lines 433-450)

The handler duck-types `action.error` at runtime, so the input is modeled
structurally with every field optional, matching each `&&` / `===` /
`Array.isArray` test. -/

/-- `extensions` of one GraphQL error entry. -/
structure LFExtensions where
  code : String
  deriving DecidableEq, Repr

/-- One entry of `action.error.response.data.errors`; `extensions = none`
models an absent/falsy `e.extensions`. -/
structure LFErr where
  extensions : Option LFExtensions
  deriving DecidableEq, Repr

/-- `action.error.response.data`; `errors = some l` models a field accepted
by `Array.isArray`. -/
structure LFData where
  errors : Option (List LFErr)
  deriving DecidableEq, Repr

/-- `action.error.response`. -/
structure LFResponse where
  status : Option Nat
  data : Option LFData
  deriving DecidableEq, Repr

/-- `action.error` of a login-failure action. -/
structure LFError where
  status : Option Nat
  response : Option LFResponse
  deriving DecidableEq, Repr

/-- Lines 444-446: `e.extensions && e.extensions.code === 'UNAUTHENTICATED'`. -/
def isUnauthenticatedTag (e : LFErr) : Bool :=
  match e.extensions with
  | some x => x.code = "UNAUTHENTICATED"
  | none => false

/-- The condition of lines 436-447. -/
def loginFailureLogoutCond (err : LFError) : Bool :=
  err.status = some 401 ||
    match err.response with
    | some r =>
      r.status = some 401 ||
        match r.data with
        | some d =>
          match d.errors with
          | some l => l.any isUnauthenticatedTag
          | none => false
        | none => false
    | none => false

/-- `onLoginFailure` (lines 433-450), returning how many `logout` events it
emits (`action.error` absent short-circuits the outer `&&`). -/
def onLoginFailureLogoutCount (err : Option LFError) : Nat :=
  match err with
  | none => 0
  | some e => if loginFailureLogoutCond e then 1 else 0

/-! ## Session Exchanger, direct-provider (local-only) mode
(`onLoginRequest`, auth.ts lines 157-225) -/

/-- The fields of the GitHub `GET /user` response data used at lines
166-221 (`created_at`/`updated_at` as epoch ms per the conventions above). -/
structure GHApiUser where
  id : Nat
  node_id : String
  login : String
  name : Option String
  avatar_url : String
  created_at : Int
  updated_at : Int
  deriving DecidableEq, Repr

/-- The synthetic plan built at lines 186-217 (the claim-relevant fields;
all string dates are epoch ms, `new Date().toISOString()` is `now`). -/
structure LPlan where
  id : String
  status : String
  amount : Nat
  trialPeriodDays : Nat
  startAt : Int
  trialStartAt : Option Int
  trialEndAt : Option Int
  columnsLimit : Int
  createdAt : Int
  updatedAt : Int
  deriving DecidableEq, Repr

/-- The `github.personal` credential built at lines 169-175. -/
structure LToken where
  token : String
  scope : List String
  tokenType : String
  tokenCreatedAt : Int
  login : String
  deriving DecidableEq, Repr

/-- The `github.user` record built at lines 176-184. -/
structure LGHUser where
  id : Nat
  nodeId : String
  login : String
  name : String
  avatarUrl : String
  createdAt : Int
  updatedAt : Int
  deriving DecidableEq, Repr

/-- The `github` record of the synthetic user. -/
structure LGithub where
  personal : LToken
  user : LGHUser
  deriving DecidableEq, Repr

/-- The synthetic user built at lines 166-221. -/
structure LUser where
  _id : String
  github : LGithub
  plan : LPlan
  createdAt : Int
  updatedAt : Int
  lastLoginAt : Int
  deriving DecidableEq, Repr

/-- Lines 166-221: the synthetic `User` of local-only mode.  The branch runs
only with `constants.LOCAL_ONLY_PERSONAL_ACCESS_TOKEN` set, so
`featureFlags.columnsLimit` is `999`; `plan.trialStartAt`/`trialEndAt` are
`undefined`; `lastLoginAt` is `new Date().toISOString()`, i.e. `now`. -/
def buildLocalUser (now : Int) (appToken : String) (d : GHApiUser) : LUser :=
  { _id := "github_" ++ toString d.id
    github :=
      { personal :=
          { token := appToken
            scope := ["repo"]
            tokenType := "bearer"
            tokenCreatedAt := now
            login := d.login }
        user :=
          { id := d.id
            nodeId := d.node_id
            login := d.login
            name := match d.name with | some n => n | none => d.login
            avatarUrl := d.avatar_url
            createdAt := d.created_at
            updatedAt := d.updated_at } }
    plan :=
      { id := "free"
        status := "active"
        amount := 0
        trialPeriodDays := 0
        startAt := now
        trialStartAt := none
        trialEndAt := none
        columnsLimit := 999
        createdAt := now
        updatedAt := now }
    createdAt := now
    updatedAt := now
    lastLoginAt := now }

/-- An action emitted by the local-only exchange branch. -/
inductive LocalAuthAction where
  | loginSuccess (appToken : String) (user : LUser)
  | loginFailure (error : AuthError)
  deriving DecidableEq, Repr

/-- Local-only branch of `onLoginRequest` (lines 157-225): `response.data`
absent throws `Error('Invalid response from GitHub API')`, handled by the
same catch block as the backend path; otherwise `loginSuccess({appToken,
user})` with the synthetic user. -/
def onLoginRequestLocal (now : Int) (appToken : String)
    (responseData : Option GHApiUser) : LocalAuthAction :=
  match responseData with
  | none =>
    .loginFailure (normalizeAuthError
      (mkPlainError "Invalid response from GitHub API"))
  | some d => .loginSuccess appToken (buildLocalUser now appToken d)

/-- Projection of the synthetic plan onto the slice the keeper reads. -/
def LPlan.toKPlan (p : LPlan) : KPlan := { trialEndAt := p.trialEndAt }

/-! ## Login helpers (`LoginHelpersContext.tsx`) -/

/-- A value reaching `handleAuthError`'s `error` parameter, classified the
way lines 81-84 classify it: an `Error` instance, a string, or anything
else. -/
inductive HandledError where
  | errorInstance (name message : String)
  | stringValue (s : String)
  | otherValue
  deriving DecidableEq, Repr

/-- Lines 81-84: the message of `err` after the
`error instanceof Error ? error : new Error(typeof error === 'string' ?
error : 'Unknown error')` coercion. -/
def handledErrorMessage : HandledError → String
  | .errorInstance _ m => m
  | .stringValue s => s
  | .otherValue => "Unknown error"

/-- Observable effects of `handleAuthError`: the crash-report notification
(`bugsnag.notify(err, { description })`, recorded as the description it was
called with; `none` would mean no call) and the dialog
(`dialog.show(title, message)`). -/
structure HandleResult where
  notifiedDescription : Option String
  dialog : Option (String × String)
  deriving DecidableEq, Repr

/-- `handleAuthError` (lines 73-89): notifies the crash reporter
unconditionally (line 85), then returns without a dialog iff the message is
`'Canceled'` or `'Timeout'` (line 87), else shows
`dialog.show('Login failed', err.message)` (line 88). -/
def handleAuthError (error : HandledError) (description : String) :
    HandleResult :=
  let msg := handledErrorMessage error
  { notifiedDescription := some description
    dialog :=
      if msg = "Canceled" ∨ msg = "Timeout" then none
      else some ("Login failed", msg) }

/-- Character-level comma split with JavaScript `String.split(',')`
semantics: `"".split(',')` is `[""]` and consecutive commas yield empty
pieces. -/
def splitCommaChars : List Char → List (List Char)
  | [] => [[]]
  | c :: rest =>
    let groups := splitCommaChars rest
    if c = ',' then [] :: groups
    else
      match groups with
      | g :: gs => (c :: g) :: gs
      | [] => [[c]]

/-- Lines 243-246: `` `${response.headers['x-oauth-scopes'] || ''}`
.replace(/\s+/g, '').split(',').filter(Boolean) `` — strip all whitespace,
split on commas, drop empty entries. -/
def parseScopes (header : Option String) : List String :=
  let raw := match header with | some s => s | none => ""
  let stripped := raw.data.filter (fun c => ¬ c.isWhitespace)
  ((splitCommaChars stripped).map (fun g => String.mk g)).filter
    (fun s => s ≠ "")

/-- The GitHub `GET /user` response as read by
`loginWithGitHubPersonalAccessToken` (lines 219-246): `response.data.id`,
`response.data.login` (both truthiness-tested) and the
`x-oauth-scopes` header. -/
structure PATResponse where
  id : Option Nat
  login : Option String
  scopesHeader : Option String
  deriving DecidableEq, Repr

/-- The already-logged-in GitHub identity, from the
`loggedGitHubUserId` / `loggedGitHubUsername` selectors. -/
structure LoggedGitHub where
  id : Option Nat
  login : Option String
  deriving DecidableEq, Repr

/-- Lines 229-231: `loggedGitHubUserId && `${response.data.id}` !==
`${loggedGitHubUserId}``.  Stringified decimal equality of the two ids
coincides with numeric equality. -/
def idMismatch (rid : Nat) (loggedId : Option Nat) : Bool :=
  match loggedId with
  | some lid => lid ≠ 0 && rid ≠ lid
  | none => false

/-- Line 234: `response.data.login !== loggedGitHubUsername` (a string is
never strictly equal to `undefined`). -/
def loginDiffers (rlogin : String) (loggedLogin : Option String) : Bool :=
  match loggedLogin with
  | some l => rlogin ≠ l
  | none => true

/-- Lines 233-236: the `details` string of the mismatch error; a template
literal renders an `undefined` interpolant as the text `undefined`. -/
def mismatchDetails (rid : Nat) (rlogin : String) (logged : LoggedGitHub) :
    String :=
  if loginDiffers rlogin logged.login then
    " (" ++ rlogin ++ " instead of " ++
      (match logged.login with | some l => l | none => "undefined") ++ ")"
  else
    " (ID " ++ toString rid ++ " instead of " ++
      (match logged.id with | some lid => toString lid | none => "undefined")
      ++ ")"

/-- The scope-limitation error thrown at lines 249-253. -/
def scopeErrorMessage : String :=
  "You didn\x27t include the \"repo\" permission scope," ++
    " which is required to have access to private repositories." ++
    " Your token will be safe on your device, and will never be sent to DevHub\x27s server."

/-- The validation prefix of `loginWithGitHubPersonalAccessToken`
(lines 225-254): identity-response check, logged-in-account match, scope
check.  `.error` is the message of the `Error` thrown by the failing step;
`.ok` carries the parsed scope list the adoption steps go on to use. -/
def validatePersonalAccessToken (resp : PATResponse) (logged : LoggedGitHub) :
    Except String (List String) :=
  match resp.id, resp.login with
  | some rid, some rlogin =>
    if rid ≠ 0 ∧ rlogin ≠ "" then
      if idMismatch rid logged.id then
        .error ("This Personal Access Token seems to be from a different user"
          ++ mismatchDetails rid rlogin logged ++ ".")
      else
        let scope := parseScopes resp.scopesHeader
        if scope ≠ [] ∧ ¬ scope.contains "repo" then .error scopeErrorMessage
        else .ok scope
    else .error "Invalid response from GitHub API"
  | _, _ => .error "Invalid response from GitHub API"

/-! ## Theorems -/

/-- C1: the claim states that when the plan's `trialEndAt` is strictly in the
future and strictly less than one hour away (no earlier branch firing), the
computed delay equals `(trialEndAt - now) + 100` ms.  The source (auth.ts
line 137) instead computes `Date.now() - trialEndAt + 100`, a negative value
here: at `now = 2000000`, `trialEndAt = 3800000` (30 minutes ahead), the
iteration yields a delay of `-1799900` ms, not the `1800100` ms the claim
requires — the code contradicts its own comment, "use this time diff as
delay". -/
theorem keeper_trial_delay_sign_bug :
    keeperIteration false 2000000 (some "tok") true
        (some { lastLoginAt := some 1000000 })
        (some { trialEndAt := some 3800000 }) = .idle (-1799900) ∧
      (-1799900 : Int) ≠ 3800000 - 2000000 + 100 := by
  exact ⟨rfl, by decide⟩

/-- C5: when the environment is not reloadable (or the 48-hour bound has not
elapsed) and more than 12 hours have passed since `lastLoginAt`, the
iteration emits exactly one login-request carrying the current `appToken`
and falls through to the generic delay computation — whatever the plan's
trial state, so this branch takes priority over the trial-just-expired
branch. -/
theorem keeper_refresh_after_12h (reloadable : Bool) (now lastLogin : Int)
    (tok : String) (plan : Option KPlan)
    (h48 : ¬ (reloadable = true ∧ now - lastLogin > 1000 * 60 * 60 * 48))
    (h12 : now - lastLogin > 1000 * 60 * 60 * 12) :
    keeperIteration reloadable now (some tok) true
        (some { lastLoginAt := some lastLogin }) plan =
      .refresh tok (genericDelay now plan) ∧
    emittedRequests (keeperIteration reloadable now (some tok) true
        (some { lastLoginAt := some lastLogin }) plan) = [tok] ∧
    skipsGenericDelay (keeperIteration reloadable now (some tok) true
        (some { lastLoginAt := some lastLogin }) plan) = false := by
  have hm : keeperIteration reloadable now (some tok) true
      (some { lastLoginAt := some lastLogin }) plan =
      .refresh tok (genericDelay now plan) := by
    simp only [keeperIteration]
    rw [if_neg h48, if_pos h12]
    simp
  exact ⟨hm, by rw [hm]; rfl, by rw [hm]; rfl⟩

/-- Witness for C5: a concrete iteration 13 hours after login, not
reloadable. -/
theorem keeper_refresh_after_12h_witness :
    keeperIteration false 46800000001 (some "tok") true
        (some { lastLoginAt := some 0 }) none =
      .refresh "tok" (genericDelay 46800000001 none) :=
  (keeper_refresh_after_12h false 46800000001 0 "tok" none
    (by decide) (by decide)).1

/-- C6: when the first two branches do not fire and the trial ended within
the last five minutes, the iteration emits one login-request carrying the
current `appToken`, sleeps one minute, and restarts, skipping the generic
delay computation. -/
theorem keeper_trial_just_expired_branch (reloadable : Bool)
    (now lastLogin tEnd : Int) (tok : String)
    (h48 : ¬ (reloadable = true ∧ now - lastLogin > 1000 * 60 * 60 * 48))
    (h12 : ¬ (now - lastLogin > 1000 * 60 * 60 * 12))
    (hge : now ≥ tEnd) (hlt : now - tEnd < 1000 * 60 * 5) :
    keeperIteration reloadable now (some tok) true
        (some { lastLoginAt := some lastLogin })
        (some { trialEndAt := some tEnd }) = .trialJustExpired tok ∧
    emittedRequests (.trialJustExpired tok) = [tok] ∧
    iterDelay (.trialJustExpired tok) = some 60000 ∧
    skipsGenericDelay (.trialJustExpired tok) = true := by
  have hcond : trialJustExpiredCond now (some { trialEndAt := some tEnd }) = true := by
    simp only [trialJustExpiredCond, Bool.and_eq_true, decide_eq_true_eq]
    exact ⟨hge, by omega⟩
  have hm : keeperIteration reloadable now (some tok) true
      (some { lastLoginAt := some lastLogin })
      (some { trialEndAt := some tEnd }) = .trialJustExpired tok := by
    simp only [keeperIteration]
    rw [if_neg h48, if_neg h12, if_pos hcond]
    simp
  exact ⟨hm, rfl, rfl, rfl⟩

/-- Witness for C6: a concrete iteration with the trial ended 2 minutes
ago. -/
theorem keeper_trial_just_expired_branch_witness :
    keeperIteration false 1000000 (some "tok") true
        (some { lastLoginAt := some 900000 })
        (some { trialEndAt := some 880000 }) = .trialJustExpired "tok" :=
  (keeper_trial_just_expired_branch false 1000000 900000 880000 "tok"
    (by decide) (by decide) (by decide) (by decide)).1

/-- C2 counterexample: a well-formed backend response whose `login.appToken`
is `"freshToken"`, handled for a login-request carrying `"requestToken"`.
The emitted login-success carries `"requestToken"` — the saga (auth.ts line
373) reuses the request's `appToken` rather than the response's, so the
login-success does not carry "exactly that appToken" of the response. -/
theorem exchange_request_token_counterexample :
    onLoginRequestBackend "requestToken"
        { data := some { login := some {
              appToken := some "freshToken"
              user := some { github := some { user := some { id := some 7 } } } } }
          errors := none
          status := 200 } =
      .loginSuccess "requestToken"
        { github := some { user := some { id := some 7 } } } ∧
    "requestToken" ≠ "freshToken" :=
  ⟨rfl, by decide⟩

/-- C2 (amended): with no GraphQL errors, a response passing the line
358-368 validation yields a login-success carrying the appToken of the
login-request being handled (not the response's) and exactly the response's
user record; a response failing the validation is a protocol violation:
`Error('Invalid response')` is thrown and a login-failure is emitted whose
normalized error has that message and unset `status`/`response`. -/
theorem exchange_backend_success_and_protocol_error
    (reqToken : String) (resp : BackendResponse)
    (herr : hasGraphQLErrors resp.errors = false) :
    (∀ env l u, resp.data = some env → env.login = some l → l.user = some u →
      validLoginResponse resp = true →
      onLoginRequestBackend reqToken resp = .loginSuccess reqToken u) ∧
    (validLoginResponse resp = false →
      onLoginRequestBackend reqToken resp =
        .loginFailure { name := "Error", message := "Invalid response",
                        status := none, response := none }) := by
  constructor
  · intro env l u henv hlogin huser hvalid
    simp only [onLoginRequestBackend, herr, hvalid, henv, hlogin, huser]
    rfl
  · intro hvalid
    simp only [onLoginRequestBackend, herr, hvalid]
    rfl

/-- Witness for C2 (amended): both conjuncts applied at concrete
responses. -/
theorem exchange_backend_success_and_protocol_error_witness :
    onLoginRequestBackend "a"
        { data := some { login := some {
              appToken := some "b"
              user := some { github := some { user := some { id := some 1 } } } } }
          errors := none
          status := 200 } =
      .loginSuccess "a" { github := some { user := some { id := some 1 } } } ∧
    onLoginRequestBackend "a"
        { data := some { login := some { appToken := none, user := none } }
          errors := some []
          status := 200 } =
      .loginFailure { name := "Error", message := "Invalid response",
                      status := none, response := none } :=
  ⟨(exchange_backend_success_and_protocol_error "a" _ (by decide)).1
      _ _ _ rfl rfl rfl (by decide),
    (exchange_backend_success_and_protocol_error "a" _ (by decide)).2
      (by decide)⟩

/-- C3 counterexample: the claim states that any value not matching the
shape "object with `response.data.errors` a *non-empty* array and numeric
`response.status`" normalizes with `status` and `response` unset.  But an
empty array passes both the truthiness and the `Array.isArray` tests of
`isGraphQLErrorResponse` (auth.ts lines 71-84), so this value — whose errors
array is empty — still gets `status = 500` and a set `response`. -/
theorem normalizer_empty_errors_counterexample :
    (normalizeAuthError
        { isErrorInstance := false, isObject := true, name := "x",
          message := "y",
          response := some { data := some { errors := some [] },
                             status := some 500 } }).status = some 500 ∧
    (normalizeAuthError
        { isErrorInstance := false, isObject := true, name := "x",
          message := "y",
          response := some { data := some { errors := some [] },
                             status := some 500 } }).response =
      some { errors := some [] } :=
  ⟨rfl, rfl⟩

/-- C3 (amended): a backend response with a non-empty `errors` array yields
a login-failure whose error has `status` = the HTTP status and whose
`response` wraps exactly that error list; and any thrown value that
`isGraphQLErrorResponse` rejects (an object with `response.data.errors` an
*array* — possibly empty — and numeric `response.status`; the source does
not require non-emptiness) normalizes with `status` and `response` unset. -/
theorem graphql_error_status_and_response :
    (∀ (reqToken : String) (resp : BackendResponse) (l : List ErrMsg),
      resp.errors = some l → l ≠ [] →
      onLoginRequestBackend reqToken resp =
        .loginFailure { name := "Error", message := "GraphQL Error",
                        status := some resp.status,
                        response := some { errors := some l } }) ∧
    (∀ t : Thrown, isGraphQLErrorResponse t = false →
      (normalizeAuthError t).status = none ∧
        (normalizeAuthError t).response = none) := by
  constructor
  · intro reqToken resp l hl hne
    have herr : hasGraphQLErrors resp.errors = true := by
      simp [hasGraphQLErrors, hl, hne]
    simp only [onLoginRequestBackend, herr, if_true]
    simp only [createGraphQLError, normalizeAuthError, isGraphQLErrorResponse,
      hl]
    rfl
  · intro t ht
    simp [normalizeAuthError, ht]

/-- Witness for C3 (amended): both conjuncts at concrete inputs. -/
theorem graphql_error_status_and_response_witness :
    onLoginRequestBackend "a"
        { data := none, errors := some [{ message := "boom" }], status := 502 } =
      .loginFailure { name := "Error", message := "GraphQL Error",
                      status := some 502,
                      response := some { errors := some [{ message := "boom" }] } } ∧
    (normalizeAuthError
        { isErrorInstance := true, isObject := true, name := "Error",
          message := "m", response := none }).status = none :=
  ⟨graphql_error_status_and_response.1 "a" _ [{ message := "boom" }] rfl
      (by decide),
    (graphql_error_status_and_response.2
      { isErrorInstance := true, isObject := true, name := "Error",
        message := "m", response := none } (by decide)).1⟩

/-- C4: a login-failure whose error has `status = 401` emits exactly one
logout event; one whose error has `status = 403` and whose body carries
neither a nested `response.status` of 401 nor a GraphQL error tagged
`UNAUTHENTICATED` emits none. -/
theorem login_failure_logout_events (e : LFError) :
    (e.status = some 401 → onLoginFailureLogoutCount (some e) = 1) ∧
    (e.status = some 403 →
      (∀ r, e.response = some r →
        r.status ≠ some 401 ∧
          ∀ d l er, r.data = some d → d.errors = some l → er ∈ l →
            isUnauthenticatedTag er = false) →
      onLoginFailureLogoutCount (some e) = 0) := by
  constructor
  · intro h
    simp [onLoginFailureLogoutCount, loginFailureLogoutCond, h]
  · intro h403 hresp
    have hcond : loginFailureLogoutCond e = false := by
      unfold loginFailureLogoutCond
      rw [h403]
      cases hr : e.response with
      | none => simp
      | some r =>
        obtain ⟨hst, herr⟩ := hresp r hr
        cases hd : r.data with
        | none => simp [hst, hd]
        | some d =>
          cases he : d.errors with
          | none => simp [hst, hd, he]
          | some l =>
            have hany : l.any isUnauthenticatedTag = false := by
              rw [List.any_eq_false]
              intro er hin
              simp [herr d l er hd he hin]
            simp [hst, hd, he, hany]
    simp [onLoginFailureLogoutCount, hcond]

/-- Witness for C4: a 401 failure emits one logout; a bare 403 failure
emits none. -/
theorem login_failure_logout_events_witness :
    onLoginFailureLogoutCount (some { status := some 401, response := none }) = 1 ∧
    onLoginFailureLogoutCount (some { status := some 403, response := none }) = 0 :=
  ⟨(login_failure_logout_events { status := some 401, response := none }).1 rfl,
    (login_failure_logout_events { status := some 403, response := none }).2 rfl
      (fun r hr => by simp at hr)⟩

/-- C7: when the identity response is well-formed, no logged-in-account
mismatch fires, and the parsed scope set is non-empty without `repo`, the
validation rejects the token with the private-repository error (whose text
states the token stays on the device); an empty parsed scope set passes the
scope check and the validation succeeds. -/
theorem pat_scope_check (header : Option String) (rid : Nat) (rlogin : String)
    (lg : LoggedGitHub) (hrid : rid ≠ 0) (hrlogin : rlogin ≠ "")
    (hnomismatch : idMismatch rid lg.id = false) :
    (parseScopes header ≠ [] → "repo" ∉ parseScopes header →
      validatePersonalAccessToken
          { id := some rid, login := some rlogin, scopesHeader := header } lg =
        .error scopeErrorMessage) ∧
    (parseScopes header = [] →
      validatePersonalAccessToken
          { id := some rid, login := some rlogin, scopesHeader := header } lg =
        .ok []) := by
  constructor
  · intro hne hnorepo
    simp only [validatePersonalAccessToken]
    rw [if_pos ⟨hrid, hrlogin⟩, if_neg (by simp [hnomismatch]),
      if_pos ⟨hne, by simpa using hnorepo⟩]
  · intro hempty
    simp only [validatePersonalAccessToken]
    rw [if_pos ⟨hrid, hrlogin⟩, if_neg (by simp [hnomismatch]),
      if_neg (by simp [hempty]), hempty]

/-- Witness for C7: a token granting only `notifications, gist` is
rejected; an empty scopes header passes. -/
theorem pat_scope_check_witness :
    validatePersonalAccessToken
        { id := some 1, login := some "octocat",
          scopesHeader := some "notifications, gist" }
        { id := none, login := none } = .error scopeErrorMessage ∧
    validatePersonalAccessToken
        { id := some 1, login := some "octocat", scopesHeader := none }
        { id := none, login := none } = .ok [] :=
  ⟨(pat_scope_check (some "notifications, gist") 1 "octocat"
        { id := none, login := none } (by decide) (by decide) rfl).1
      (by decide) (by decide),
    (pat_scope_check none 1 "octocat" { id := none, login := none }
        (by decide) (by decide) rfl).2 rfl⟩

/-- C8: with a truthy logged-in GitHub id, a well-formed identity response
whose id differs fails with the mismatch error — named by the two logins
when the returned login differs from the logged-in login, else by the two
numeric ids; when the ids match, the check passes and validation proceeds
to the scope check. -/
theorem pat_identity_match (rid lid : Nat) (rlogin : String)
    (loggedLogin : Option String) (header : Option String)
    (hrid : rid ≠ 0) (hrlogin : rlogin ≠ "") (hlid : lid ≠ 0) :
    (rid ≠ lid →
      validatePersonalAccessToken
          { id := some rid, login := some rlogin, scopesHeader := header }
          { id := some lid, login := loggedLogin } =
        .error ("This Personal Access Token seems to be from a different user"
          ++ (if loginDiffers rlogin loggedLogin then
                " (" ++ rlogin ++ " instead of " ++
                  (match loggedLogin with | some l => l | none => "undefined")
                  ++ ")"
              else
                " (ID " ++ toString rid ++ " instead of " ++ toString lid
                  ++ ")") ++ ".")) ∧
    (rid = lid →
      validatePersonalAccessToken
          { id := some rid, login := some rlogin, scopesHeader := header }
          { id := some lid, login := loggedLogin } =
        if parseScopes header ≠ [] ∧ ¬ (parseScopes header).contains "repo"
        then .error scopeErrorMessage else .ok (parseScopes header)) := by
  constructor
  · intro hne
    have hmm : idMismatch rid (some lid) = true := by
      simp [idMismatch, hlid, hne]
    simp only [validatePersonalAccessToken]
    rw [if_pos ⟨hrid, hrlogin⟩, if_pos hmm]
    simp only [mismatchDetails]
  · intro heq
    have hmm : idMismatch rid (some lid) = false := by
      simp [idMismatch, heq]
    simp only [validatePersonalAccessToken]
    rw [if_pos ⟨hrid, hrlogin⟩, if_neg (by simp [hmm])]

/-- Witness for C8: a token from `other` while `octocat` (id 2) is logged
in is rejected naming the two logins; matching ids pass to the scope
check. -/
theorem pat_identity_match_witness :
    validatePersonalAccessToken
        { id := some 1, login := some "other", scopesHeader := none }
        { id := some 2, login := some "octocat" } =
      .error ("This Personal Access Token seems to be from a different user"
        ++ " (other instead of octocat)" ++ ".") ∧
    validatePersonalAccessToken
        { id := some 2, login := some "octocat", scopesHeader := none }
        { id := some 2, login := some "octocat" } = .ok [] := by
  constructor
  · have h := (pat_identity_match 1 2 "other" (some "octocat") none
      (by decide) (by decide) (by decide)).1 (by decide)
    rw [h]
    rfl
  · have h := (pat_identity_match 2 2 "octocat" (some "octocat") none
      (by decide) (by decide) (by decide)).2 rfl
    rw [h]
    rfl

/-- C9 counterexample: a failure whose message is `'Canceled'` produces no
dialog, but it IS reported to the crash-reporting collaborator —
`bugsnag.notify` runs at LoginHelpersContext.tsx line 85, before the
Canceled/Timeout early return at line 87 — contradicting the claim that
Canceled/Timeout failures are swallowed without being reported. -/
theorem canceled_error_reported_counterexample :
    (handleAuthError (.errorInstance "Error" "Canceled")
        "Personal access token login failed").dialog = none ∧
    (handleAuthError (.errorInstance "Error" "Canceled")
        "Personal access token login failed").notifiedDescription =
      some "Personal access token login failed" :=
  ⟨rfl, rfl⟩

/-- C9 (amended): `'Canceled'` and `'Timeout'` messages are the only
failures producing no user-facing dialog; every other failure produces a
blocking dialog with the title `'Login failed'` and the error message; and
every failure — Canceled/Timeout included — is reported to the
crash-reporting collaborator. -/
theorem auth_error_dialog_and_reporting (e : HandledError) (d : String) :
    (handleAuthError e d).notifiedDescription = some d ∧
    ((handleAuthError e d).dialog = none ↔
      (handledErrorMessage e = "Canceled" ∨ handledErrorMessage e = "Timeout")) ∧
    (handledErrorMessage e ≠ "Canceled" → handledErrorMessage e ≠ "Timeout" →
      (handleAuthError e d).dialog =
        some ("Login failed", handledErrorMessage e)) := by
  refine ⟨rfl, ?_, ?_⟩
  · constructor
    · intro h
      by_contra hc
      push_neg at hc
      simp [handleAuthError, hc.1, hc.2] at h
    · intro h
      simp [handleAuthError, h]
  · intro h1 h2
    simp [handleAuthError, h1, h2]

/-- Witness for C9 (amended): a concrete non-suppressed failure. -/
theorem auth_error_dialog_and_reporting_witness :
    (handleAuthError (.errorInstance "Error" "boom")
        "Authentication failed").dialog = some ("Login failed", "boom") :=
  (auth_error_dialog_and_reporting (.errorInstance "Error" "boom")
      "Authentication failed").2.2 (by decide) (by decide)

/-- C10: every session produced by a successful direct-provider (local-only)
exchange has a plan with `trialEndAt` unset and `lastLoginAt` equal to the
exchange time; consequently the keeper's trial-just-expired branch is never
taken for such a plan and its generic delay is always the plain one-hour
sleep (the trial-ending-within-an-hour delay never applies). -/
theorem local_mode_session_no_trial (now : Int) (tok : String) (d : GHApiUser)
    (u : LUser) (h : onLoginRequestLocal now tok (some d) = .loginSuccess tok u) :
    u.plan.trialEndAt = none ∧ u.lastLoginAt = now ∧
    (∀ (reloadable isLogged : Bool) (now2 : Int) (tok2 : Option String)
        (keeperUser : Option KUser) (tok3 : String),
      keeperIteration reloadable now2 tok2 isLogged keeperUser
        (some u.plan.toKPlan) ≠ .trialJustExpired tok3) ∧
    (∀ now2 : Int, genericDelay now2 (some u.plan.toKPlan) = 1000 * 60 * 60) := by
  have hu : u = buildLocalUser now tok d := by
    simpa [onLoginRequestLocal] using h.symm
  subst hu
  refine ⟨rfl, rfl, ?_, fun now2 => rfl⟩
  intro reloadable isLogged now2 tok2 keeperUser tok3
  have hcond : trialJustExpiredCond now2
      (some (buildLocalUser now tok d).plan.toKPlan) = false := rfl
  unfold keeperIteration
  cases tok2 with
  | none => cases keeperUser <;> simp
  | some t =>
    cases keeperUser with
    | none => simp
    | some ku =>
      cases isLogged with
      | false => simp
      | true =>
        cases hl : ku.lastLoginAt with
        | none => simp [hl]
        | some lastLogin =>
          simp only [hl, if_true]
          split
          · simp
          · split
            · simp
            · rw [if_neg (by simp [hcond])]
              simp

/-- Witness for C10: a concrete local-only exchange. -/
theorem local_mode_session_no_trial_witness :
    (buildLocalUser 5000 "pat"
        { id := 1
          node_id := "n"
          login := "octocat"
          name := none
          avatar_url := "a"
          created_at := 1
          updated_at := 2 }).plan.trialEndAt = none :=
  (local_mode_session_no_trial 5000 "pat"
    { id := 1
      node_id := "n"
      login := "octocat"
      name := none
      avatar_url := "a"
      created_at := 1
      updated_at := 2 } _ rfl).1

end DevHub
